import Mathlib

/-!
Verification of the Panasonic Blu-ray remote integration
(`custom_components/panasonic_bluray`): a shallow embedding of the API
client (`api.py`) and the poll coordinator (`coordinator.py`), with
theorems settling the specification's claims about them.

Python string primitives (`str.split`, `str.strip` truthiness,
`str.upper`, `int(...)`, `startswith`, `in`) are modelled by executable
functions over `List Char`; the models cover the ASCII behaviour the
protocol uses (the Python originals additionally accept some Unicode
forms, e.g. Unicode digits or underscore separators in `int`, which
never occur in this wire protocol).
-/

namespace PanasonicBR

/-- `DeviceMode` enum of `api.py`: device mode from STATUS_SIMPLE field 3. -/
inductive DeviceMode
  | IDLE
  | TRAY_OPEN
  | REWIND
  | FAST_FORWARD
  | SLOW_MOTION
  | STANDBY
  | PLAYING
  | PAUSED
  | UNKNOWN
deriving DecidableEq, Repr

/-- Wire value of each `DeviceMode` member, as in `api.py`. -/
def DeviceMode.value : DeviceMode → String
  | .IDLE => "00"
  | .TRAY_OPEN => "01"
  | .REWIND => "02"
  | .FAST_FORWARD => "05"
  | .SLOW_MOTION => "06"
  | .STANDBY => "07"
  | .PLAYING => "08"
  | .PAUSED => "09"
  | .UNKNOWN => "FF"

/-- Python `Enum.name` of each `DeviceMode` member. -/
def DeviceMode.name : DeviceMode → String
  | .IDLE => "IDLE"
  | .TRAY_OPEN => "TRAY_OPEN"
  | .REWIND => "REWIND"
  | .FAST_FORWARD => "FAST_FORWARD"
  | .SLOW_MOTION => "SLOW_MOTION"
  | .STANDBY => "STANDBY"
  | .PLAYING => "PLAYING"
  | .PAUSED => "PAUSED"
  | .UNKNOWN => "UNKNOWN"

/-- Members of `DeviceMode` in Python iteration (definition) order. -/
def DeviceMode.all : List DeviceMode :=
  [.IDLE, .TRAY_OPEN, .REWIND, .FAST_FORWARD, .SLOW_MOTION,
   .STANDBY, .PLAYING, .PAUSED, .UNKNOWN]

/-- `PlaybackState` enum of `api.py`: playback state from PST field 0. -/
inductive PlaybackState
  | STOPPED
  | PLAYING
  | PAUSED
  | FAST_FORWARD
  | REWIND
  | SLOW_MOTION
  | UNKNOWN
deriving DecidableEq, Repr

/-- Wire value of each `PlaybackState` member, as in `api.py`. -/
def PlaybackState.value : PlaybackState → String
  | .STOPPED => "0"
  | .PLAYING => "1"
  | .PAUSED => "2"
  | .FAST_FORWARD => "4"
  | .REWIND => "5"
  | .SLOW_MOTION => "6"
  | .UNKNOWN => "99"

/-- Python `Enum.name` of each `PlaybackState` member. -/
def PlaybackState.name : PlaybackState → String
  | .STOPPED => "STOPPED"
  | .PLAYING => "PLAYING"
  | .PAUSED => "PAUSED"
  | .FAST_FORWARD => "FAST_FORWARD"
  | .REWIND => "REWIND"
  | .SLOW_MOTION => "SLOW_MOTION"
  | .UNKNOWN => "UNKNOWN"

/-- Members of `PlaybackState` in Python iteration (definition) order. -/
def PlaybackState.all : List PlaybackState :=
  [.STOPPED, .PLAYING, .PAUSED, .FAST_FORWARD, .REWIND, .SLOW_MOTION, .UNKNOWN]

/-- The `PlayerStatus` dataclass of `api.py`. -/
structure PlayerStatus where
  is_on : Bool
  device_mode : DeviceMode
  playback_state : PlaybackState
  position_seconds : Int
  speed_multiplier : Int
  clock_time : Option String
  raw_pst : Option String
  raw_status : Option String
deriving DecidableEq, Repr

/-! ### Models of the Python string primitives -/

/-- Python `str.split(",")` over characters (comma never absent from the
result: splitting always yields at least one chunk). -/
def splitCommaChars : List Char → List (List Char)
  | [] => [[]]
  | c :: rest =>
    if c = ',' then [] :: splitCommaChars rest
    else
      match splitCommaChars rest with
      | [] => [[c]]
      | g :: gs => (c :: g) :: gs

/-- Python `str.split("\r\n")` over characters. -/
def splitCRLFChars : List Char → List (List Char)
  | [] => [[]]
  | '\r' :: '\n' :: rest => [] :: splitCRLFChars rest
  | c :: rest =>
    match splitCRLFChars rest with
    | [] => [[c]]
    | g :: gs => (c :: g) :: gs

/-- `s.split(",")`. -/
def pySplitComma (s : String) : List String :=
  (splitCommaChars s.data).map (fun l => ⟨l⟩)

/-- `s.split("\r\n")`. -/
def pySplitCRLF (s : String) : List String :=
  (splitCRLFChars s.data).map (fun l => ⟨l⟩)

/-- ASCII whitespace as stripped by Python `str.strip()`. -/
def isPySpace (c : Char) : Bool :=
  c = ' ' || c = '\t' || c = '\n' || c = '\r' || c = '\x0b' || c = '\x0c'

/-- Truthiness of `line.strip()` in Python: the line has a
non-whitespace character. -/
def pyTruthyStrip (s : String) : Bool :=
  s.data.any (fun c => !(isPySpace c))

/-- Python `"," in s` (single-character needle). -/
def pyContainsComma (s : String) : Bool :=
  s.data.contains ','

/-- Python `s.upper()` (ASCII letters). -/
def pyUpper (s : String) : String :=
  ⟨s.data.map Char.toUpper⟩

/-- Python `s.startswith(pre)`. -/
def pyStartsWith (pre s : String) : Bool :=
  pre.data.isPrefixOf s.data

/-- Strip leading and trailing Python whitespace from a character list. -/
def pyStripChars (l : List Char) : List Char :=
  ((l.dropWhile isPySpace).reverse.dropWhile isPySpace).reverse

/-- Decimal value of a digit string. -/
def digitsToNat (l : List Char) : Nat :=
  l.foldl (fun n c => n * 10 + (c.toNat - 48)) 0

/-- Python `int(s)` on ASCII input: optional surrounding whitespace,
optional sign, then a nonempty run of decimal digits; `none` models the
`ValueError` the source catches. -/
def pyInt? (s : String) : Option Int :=
  match pyStripChars s.data with
  | [] => none
  | '-' :: rest =>
    if !rest.isEmpty && rest.all Char.isDigit then some (-(digitsToNat rest : Int)) else none
  | '+' :: rest =>
    if !rest.isEmpty && rest.all Char.isDigit then some ((digitsToNat rest : Int)) else none
  | t =>
    if t.all Char.isDigit then some ((digitsToNat t : Int)) else none

/-- First-match lookup in an association list with string keys (Python
`dict` lookup for the literal tables of the source). -/
def lookupStr {α : Type} (k : String) : List (String × α) → Option α
  | [] => none
  | (k', v) :: rest => if k = k' then some v else lookupStr k rest

/-! ### Transport (`PanasonicBlurayAPI._send_raw`) -/

/-- Outcome of one HTTP POST as the transport sees it: a network-level
failure (any exception) or a successfully read response body. -/
inductive HttpResult
  | failure
  | body (raw : String)

/-- The `(success, response_code, data_lines)` tuple `_send_raw` returns. -/
structure RawResult where
  success : Bool
  response_code : Option String
  data_lines : List String
deriving DecidableEq, Repr

/-- Body-parsing part of `_send_raw` (`api.py` lines 220-236): split on
CRLF, response code from the first line (before the first comma when one
is present, the whole line otherwise), data lines are the subsequent
non-blank lines, success iff the code is `"00"`. -/
def parseBody (raw : String) : RawResult :=
  let lines := pySplitCRLF raw
  let first := lines.headD ""
  let response_code := if pyContainsComma first then (pySplitComma first).headD "" else first
  let data_lines := (lines.drop 1).filter (fun l => pyTruthyStrip l)
  ⟨decide (response_code = "00"), some response_code, data_lines⟩

/-- `_send_raw`: every exception collapses to `(False, None, [])`;
otherwise the body is parsed. -/
def sendRaw : HttpResult → RawResult
  | .failure => ⟨false, none, []⟩
  | .body raw => parseBody raw

/-- Modelled from the spec's words (§4.2, quoted by C5): "splits the
response body on CRLF. Response code is derived from the first line: the
substring before the first comma, or the whole first line if no comma is
present. `data_lines` is every subsequent non-blank line, order
preserved. `success = (response_code == \"00\")`." -/
def specTransportDecode (raw : String) : RawResult :=
  let lines := pySplitCRLF raw
  let first := lines.headD ""
  let code := (pySplitComma first).headD first
  ⟨decide (code = "00"), some code, (lines.drop 1).filter (fun l => pyTruthyStrip l)⟩

/-! ### Status decoding (`PanasonicBlurayAPI.get_player_status`) -/

/-- The `for ps in PlaybackState: if ps.value == state_val: ... break`
scan of `api.py` (default `UNKNOWN` kept on no match). -/
def pbFromWire (v : String) : PlaybackState :=
  match PlaybackState.all.find? (fun ps => decide (ps.value = v)) with
  | some ps => ps
  | none => .UNKNOWN

/-- The `for dm in DeviceMode: if dm.value == mode_val: ... break`
scan of `api.py` (default `UNKNOWN` kept on no match). -/
def dmFromWire (v : String) : DeviceMode :=
  match DeviceMode.all.find? (fun dm => decide (dm.value = v)) with
  | some dm => dm
  | none => .UNKNOWN

/-- Modelled from the spec's words (§3, quoted by C6): match field 0
against the `PlaybackState` wire values, `UNKNOWN` as default. -/
def specPlaybackOfWire (v : String) : PlaybackState :=
  if v = "0" then .STOPPED
  else if v = "1" then .PLAYING
  else if v = "2" then .PAUSED
  else if v = "4" then .FAST_FORWARD
  else if v = "5" then .REWIND
  else if v = "6" then .SLOW_MOTION
  else .UNKNOWN

/-- Modelled from the spec's words (§3, quoted by C7): match field 3
against the `DeviceMode` wire values, `UNKNOWN` as default. -/
def specDeviceOfWire (v : String) : DeviceMode :=
  if v = "00" then .IDLE
  else if v = "01" then .TRAY_OPEN
  else if v = "02" then .REWIND
  else if v = "05" then .FAST_FORWARD
  else if v = "06" then .SLOW_MOTION
  else if v = "07" then .STANDBY
  else if v = "08" then .PLAYING
  else if v = "09" then .PAUSED
  else .UNKNOWN

/-- Decode of one PST line (`api.py` lines 347-366): with at least 3
comma-separated fields, field 0 is the playback state, field 1 the
position (default 0 on `ValueError`), field 2 the speed multiplier
(default 0 on `ValueError`); shorter lines keep all defaults. -/
def parsePstLine (line : String) : PlaybackState × Int × Int :=
  let parts := pySplitComma line
  if 3 ≤ parts.length then
    (pbFromWire (parts.getD 0 ""),
     (pyInt? (parts.getD 1 "")).getD 0,
     (pyInt? (parts.getD 2 "")).getD 0)
  else
    (.UNKNOWN, 0, 0)

/-- Decode of one STATUS_SIMPLE line (`api.py` lines 376-389): with at
least 14 comma-separated fields, field 3 is the device mode and field 13
the clock time (absent when empty); shorter lines keep the defaults
(`UNKNOWN`, no clock). -/
def parseStatusSimpleLine (line : String) : DeviceMode × Option String :=
  let parts := pySplitComma line
  if 14 ≤ parts.length then
    (dmFromWire (parts.getD 3 ""),
     if parts.getD 13 "" = "" then none else some (parts.getD 13 ""))
  else
    (.UNKNOWN, none)

/-- PST-side fields of `get_player_status` (lines 340-366): defaults
when there is no data line, otherwise decode of line 0. -/
structure PstSection where
  playback_state : PlaybackState
  position_seconds : Int
  speed_multiplier : Int
  raw_pst : Option String
deriving DecidableEq, Repr

def decodePstSection : List String → PstSection
  | [] => ⟨.UNKNOWN, 0, 0, none⟩
  | line :: _ =>
    let t := parsePstLine line
    ⟨t.1, t.2.1, t.2.2, some line⟩

/-- STATUS_SIMPLE-side fields of `get_player_status` (lines 369-389).
In the source `is_on` starts `True` and is reassigned to
`device_mode != STANDBY` only inside the 14-field branch; since the
short-line branch leaves `device_mode = UNKNOWN` (and
`UNKNOWN != STANDBY`), computing `is_on` uniformly from the decoded mode
is the same function. -/
structure SimpleSection where
  is_on : Bool
  device_mode : DeviceMode
  clock_time : Option String
  raw_status : Option String
deriving DecidableEq, Repr

def decodeSimpleSection : List String → SimpleSection
  | [] => ⟨true, .UNKNOWN, none, none⟩
  | line :: _ =>
    let t := parseStatusSimpleLine line
    ⟨decide (t.1 ≠ DeviceMode.STANDBY), t.1, t.2, some line⟩

/-- The `PlayerStatus(...)` construction of `api.py` lines 391-400. -/
def combineStatus (a : PstSection) (b : SimpleSection) : PlayerStatus :=
  ⟨b.is_on, b.device_mode, a.playback_state, a.position_seconds,
   a.speed_multiplier, b.clock_time, a.raw_pst, b.raw_status⟩

/-- `get_player_status` (`api.py` lines 322-400): two POSTs (`cCMD_PST`
and `cCMD_RC_STATUS_SIMPLE`); `None` when either fails, otherwise the
combined decoded status. -/
def getPlayerStatus (pstResp statusResp : HttpResult) : Option PlayerStatus :=
  if (sendRaw pstResp).success && (sendRaw statusResp).success then
    some (combineStatus (decodePstSection (sendRaw pstResp).data_lines)
                        (decodeSimpleSection (sendRaw statusResp).data_lines))
  else
    none

/-! ### Compatibility status (`PanasonicBlurayAPI.get_status`) -/

/-- `state_map.get(status.playback_state, "off")` of `get_status`
(lines 306-315). -/
def stateMapGet : PlaybackState → String
  | .STOPPED => "stopped"
  | .PLAYING => "playing"
  | .PAUSED => "paused"
  | .FAST_FORWARD => "playing"
  | .REWIND => "playing"
  | .SLOW_MOTION => "playing"
  | .UNKNOWN => "off"

/-- `get_status` (lines 289-316): `("error", -1, -1)` on absent status,
`("standby", 0, 0)` when the device is off, otherwise the mapped
playback state with the position and a constant 0 duration. -/
def getStatus (pstResp statusResp : HttpResult) : String × Int × Int :=
  match getPlayerStatus pstResp statusResp with
  | none => ("error", -1, -1)
  | some st =>
    if !st.is_on then ("standby", 0, 0)
    else (stateMapGet st.playback_state, st.position_seconds, 0)

/-! ### Command resolution (`PanasonicBlurayAPI.send_command`) -/

/-- The static `COMMANDS` dict of `api.py` (lines 64-193), in source
order. -/
def COMMANDS : List (String × String) :=
  [("POWER", "cCMD_RC_POWER"),
   ("POWERON", "cCMD_RC_POWERON"),
   ("POWEROFF", "cCMD_RC_POWEROFF"),
   ("PLAYBACK", "cCMD_RC_PLAYBACK"),
   ("PLAY", "cCMD_RC_PLAYBACK"),
   ("PAUSE", "cCMD_RC_PAUSE"),
   ("STOP", "cCMD_RC_STOP"),
   ("MEDIA_PLAY", "cCMD_RC_PLAYBACK"),
   ("MEDIA_PAUSE", "cCMD_RC_PAUSE"),
   ("MEDIA_PLAY_PAUSE", "cCMD_RC_PAUSE"),
   ("MEDIA_STOP", "cCMD_RC_STOP"),
   ("UP", "cCMD_RC_UP"),
   ("DOWN", "cCMD_RC_DOWN"),
   ("LEFT", "cCMD_RC_LEFT"),
   ("RIGHT", "cCMD_RC_RIGHT"),
   ("DPAD_UP", "cCMD_RC_UP"),
   ("DPAD_DOWN", "cCMD_RC_DOWN"),
   ("DPAD_LEFT", "cCMD_RC_LEFT"),
   ("DPAD_RIGHT", "cCMD_RC_RIGHT"),
   ("DPAD_CENTER", "cCMD_RC_SELECT"),
   ("SELECT", "cCMD_RC_SELECT"),
   ("OK", "cCMD_RC_SELECT"),
   ("RETURN", "cCMD_RC_RETURN"),
   ("BACK", "cCMD_RC_RETURN"),
   ("EXIT", "cCMD_RC_EXIT"),
   ("HOME", "cCMD_RC_MLTNAVI"),
   ("MENU", "cCMD_RC_MENU"),
   ("TITLE", "cCMD_RC_TITLE"),
   ("POPUP", "cCMD_RC_PUPMENU"),
   ("PUPMENU", "cCMD_RC_PUPMENU"),
   ("SETUP", "cCMD_RC_SETUP"),
   ("SKIPFWD", "cCMD_RC_SKIPFWD"),
   ("SKIPREV", "cCMD_RC_SKIPREV"),
   ("NEXT", "cCMD_RC_SKIPFWD"),
   ("PREV", "cCMD_RC_SKIPREV"),
   ("PREVIOUS", "cCMD_RC_SKIPREV"),
   ("MEDIA_NEXT", "cCMD_RC_SKIPFWD"),
   ("MEDIA_PREVIOUS", "cCMD_RC_SKIPREV"),
   ("CUE", "cCMD_RC_CUE"),
   ("FF", "cCMD_RC_CUE"),
   ("SEARCH_FWD1", "cCMD_RC_SEARCH_FWD1"),
   ("SEARCH_FWD2", "cCMD_RC_SEARCH_FWD2"),
   ("SEARCH_FWD3", "cCMD_RC_SEARCH_FWD3"),
   ("SEARCH_FWD4", "cCMD_RC_SEARCH_FWD4"),
   ("SEARCH_FWD5", "cCMD_RC_SEARCH_FWD5"),
   ("REV", "cCMD_RC_REV"),
   ("REW", "cCMD_RC_REV"),
   ("SEARCH_REV1", "cCMD_RC_SEARCH_REV1"),
   ("SEARCH_REV2", "cCMD_RC_SEARCH_REV2"),
   ("SEARCH_REV3", "cCMD_RC_SEARCH_REV3"),
   ("SEARCH_REV4", "cCMD_RC_SEARCH_REV4"),
   ("SEARCH_REV5", "cCMD_RC_SEARCH_REV5"),
   ("SLOW_FWD1", "cCMD_RC_SLOW_FWD1"),
   ("SLOW_FWD2", "cCMD_RC_SLOW_FWD2"),
   ("SLOW_FWD3", "cCMD_RC_SLOW_FWD3"),
   ("SLOW_FWD4", "cCMD_RC_SLOW_FWD4"),
   ("SLOW_FWD5", "cCMD_RC_SLOW_FWD5"),
   ("FRAMEADV", "cCMD_RC_FRAMEADV"),
   ("REVERSEFRAMEADV", "cCMD_RC_REVERSEFRAMEADV"),
   ("OP_CL", "cCMD_RC_OP_CL"),
   ("EJECT", "cCMD_RC_OP_CL"),
   ("TRAYOPEN", "cCMD_RC_TRAYOPEN"),
   ("TRAYCLOSE", "cCMD_RC_TRAYCLOSE"),
   ("RED", "cCMD_RC_RED"),
   ("GREEN", "cCMD_RC_GREEN"),
   ("YELLOW", "cCMD_RC_YELLOW"),
   ("BLUE", "cCMD_RC_BLUE"),
   ("D0", "cCMD_RC_D0"),
   ("D1", "cCMD_RC_D1"),
   ("D2", "cCMD_RC_D2"),
   ("D3", "cCMD_RC_D3"),
   ("D4", "cCMD_RC_D4"),
   ("D5", "cCMD_RC_D5"),
   ("D6", "cCMD_RC_D6"),
   ("D7", "cCMD_RC_D7"),
   ("D8", "cCMD_RC_D8"),
   ("D9", "cCMD_RC_D9"),
   ("0", "cCMD_RC_D0"),
   ("1", "cCMD_RC_D1"),
   ("2", "cCMD_RC_D2"),
   ("3", "cCMD_RC_D3"),
   ("4", "cCMD_RC_D4"),
   ("5", "cCMD_RC_D5"),
   ("6", "cCMD_RC_D6"),
   ("7", "cCMD_RC_D7"),
   ("8", "cCMD_RC_D8"),
   ("9", "cCMD_RC_D9"),
   ("AUDIOSEL", "cCMD_RC_AUDIOSEL"),
   ("AUDIO", "cCMD_RC_AUDIOSEL"),
   ("SUB_TITLE", "cCMD_RC_SUB_TITLE"),
   ("SUBTITLE", "cCMD_RC_SUB_TITLE"),
   ("DETAIL", "cCMD_RC_DETAIL"),
   ("INFO", "cCMD_RC_DETAIL"),
   ("DSPSEL", "cCMD_RC_DSPSEL"),
   ("DISPLAY", "cCMD_RC_DSPSEL"),
   ("OSDONOFF", "cCMD_RC_OSDONOFF"),
   ("3D", "cCMD_RC_3D"),
   ("PICTMD", "cCMD_RC_PICTMD"),
   ("PICTURESETTINGS", "cCMD_RC_PICTURESETTINGS"),
   ("HDR_PICTUREMODE", "cCMD_RC_HDR_PICTUREMODE"),
   ("NETFLIX", "cCMD_RC_NETFLIX"),
   ("NETWORK", "cCMD_RC_NETWORK"),
   ("MIRACAST", "cCMD_RC_MIRACAST")]

/-- Command-name resolution of `send_command` (`api.py` lines 257-265):
uppercased alias lookup first, then the `cCMD_` passthrough, then the
synthesized `cCMD_RC_` token. -/
def resolveCommand (command : String) : String :=
  match lookupStr (pyUpper command) COMMANDS with
  | some api_cmd => api_cmd
  | none =>
    if pyStartsWith "cCMD_" command then command
    else "cCMD_RC_" ++ pyUpper command

/-- The POST body `send_command` builds (`api.py` line 267). -/
def sendCommandBody (command : String) : String :=
  resolveCommand command ++ ".x=100&" ++ resolveCommand command ++ ".y=100"

/-- `send_command`'s returned `(success, response_code)` given the
transport outcome of its POST. -/
def sendCommand (resp : HttpResult) : Bool × Option String :=
  ((sendRaw resp).success, (sendRaw resp).response_code)

/-! ### Poll coordinator (`PanasonicCoordinator._update`) -/

/-- The `MediaPlayerState` members `_update` uses. -/
inductive MediaPlayerState
  | OFF
  | IDLE
  | PLAYING
  | PAUSED
deriving DecidableEq, Repr

/-- Values stored in the coordinator's `data` mapping. -/
inductive CoordValue
  | vNone
  | vStr (s : String)
  | vInt (n : Int)
  | vBool (b : Bool)
  | vState (st : MediaPlayerState)
  | vTime (t : Nat)
deriving DecidableEq, Repr

/-- The `if/elif` chain of `_update` (`coordinator.py` lines 84-98)
deriving the published `state` from a present status. -/
def coordinatorState (st : PlayerStatus) : MediaPlayerState :=
  if !st.is_on then .OFF
  else if st.device_mode = .TRAY_OPEN then .IDLE
  else if st.device_mode = .IDLE then .IDLE
  else if st.device_mode = .PLAYING then .PLAYING
  else if st.device_mode = .PAUSED then .PAUSED
  else if st.device_mode = .FAST_FORWARD ∨ st.device_mode = .REWIND
          ∨ st.device_mode = .SLOW_MOTION then .PLAYING
  else .IDLE

/-- Modelled from the spec's words (§4.5, quoted by C4): the exact
first-match-wins precedence for deriving `state`. -/
def specDerivedState (is_on : Bool) (dm : DeviceMode) : MediaPlayerState :=
  if !is_on then .OFF
  else if dm = .TRAY_OPEN ∨ dm = .IDLE then .IDLE
  else if dm = .PLAYING then .PLAYING
  else if dm = .PAUSED then .PAUSED
  else if dm = .FAST_FORWARD ∨ dm = .REWIND ∨ dm = .SLOW_MOTION then .PLAYING
  else .IDLE

/-- `PanasonicCoordinator._update` (`coordinator.py` lines 53-118): the
`data` mapping built for one poll cycle, as the ordered list of
key/value assignments (all keys distinct). `now` stands for `utcnow()`. -/
def coordUpdate (pstResp statusResp : HttpResult) (now : Nat) :
    List (String × CoordValue) :=
  match getPlayerStatus pstResp statusResp with
  | none =>
    [("state", .vNone),
     ("is_on", .vNone),
     ("device_mode", .vNone),
     ("playback_state", .vNone),
     ("media_position", .vInt 0),
     ("media_duration", .vInt 0),
     ("speed_multiplier", .vInt 0),
     ("tray_open", .vNone),
     ("clock_time", .vNone)]
  | some st =>
    [("is_on", .vBool st.is_on),
     ("device_mode", .vStr st.device_mode.name),
     ("device_mode_value", .vStr st.device_mode.value),
     ("playback_state", .vStr st.playback_state.name),
     ("playback_state_value", .vStr st.playback_state.value),
     ("state", .vState (coordinatorState st)),
     ("media_position", .vInt st.position_seconds),
     ("media_position_updated_at", .vTime now),
     ("media_duration", .vInt 0),
     ("speed_multiplier", .vInt st.speed_multiplier),
     ("tray_open", .vBool (decide (st.device_mode = .TRAY_OPEN))),
     ("clock_time", match st.clock_time with | none => .vNone | some s => .vStr s),
     ("raw_pst", match st.raw_pst with | none => .vNone | some s => .vStr s),
     ("raw_status", match st.raw_status with | none => .vNone | some s => .vStr s)]

/-! ### Helper lemmas -/

theorem splitCommaChars_ne_nil (l : List Char) : splitCommaChars l ≠ [] := by
  cases l with
  | nil => simp [splitCommaChars]
  | cons c rest =>
    simp only [splitCommaChars]
    split
    · simp
    · split <;> simp

theorem splitCRLFChars_ne_nil (l : List Char) : splitCRLFChars l ≠ [] := by
  unfold splitCRLFChars
  split
  · simp
  · simp
  · split <;> simp

theorem pySplitComma_ne_nil (s : String) : pySplitComma s ≠ [] := by
  unfold pySplitComma
  cases hl : splitCommaChars s.data with
  | nil => exact absurd hl (splitCommaChars_ne_nil _)
  | cons a l => simp

theorem splitCommaChars_of_no_comma (l : List Char) (h : ∀ c ∈ l, c ≠ ',') :
    splitCommaChars l = [l] := by
  induction l with
  | nil => rfl
  | cons c rest ih =>
    have hc : ¬ c = ',' := h c (by simp)
    simp only [splitCommaChars, if_neg hc]
    rw [ih (fun x hx => h x (by simp [hx]))]

/-- The two shapes of first-line code extraction agree: `_send_raw`'s
comma test with `split(",", 1)[0]`, and "the substring before the first
comma, or the whole first line if no comma is present". -/
theorem responseCode_if_eq_headD (f : String) :
    (if pyContainsComma f then (pySplitComma f).headD "" else f) =
      (pySplitComma f).headD f := by
  by_cases h : pyContainsComma f = true
  · rw [if_pos h]
    cases hl : pySplitComma f with
    | nil => exact absurd hl (pySplitComma_ne_nil f)
    | cons a l => simp
  · rw [if_neg h]
    have hnc : ∀ c ∈ f.data, c ≠ ',' := by
      intro c hc hceq
      subst hceq
      exact h (by simpa [pyContainsComma, List.contains] using List.elem_iff.mpr hc)
    have : pySplitComma f = [f] := by
      unfold pySplitComma
      rw [splitCommaChars_of_no_comma f.data hnc]
      rfl
    rw [this]
    rfl

theorem parseBody_eq_spec (raw : String) : parseBody raw = specTransportDecode raw := by
  simp only [parseBody, specTransportDecode]
  rw [responseCode_if_eq_headD]

theorem pbFromWire_eq_spec (v : String) : pbFromWire v = specPlaybackOfWire v := by
  by_cases h0 : v = "0"
  · subst h0; decide
  by_cases h1 : v = "1"
  · subst h1; decide
  by_cases h2 : v = "2"
  · subst h2; decide
  by_cases h4 : v = "4"
  · subst h4; decide
  by_cases h5 : v = "5"
  · subst h5; decide
  by_cases h6 : v = "6"
  · subst h6; decide
  by_cases h9 : v = "99"
  · subst h9; decide
  have hf : PlaybackState.all.find? (fun ps => decide (ps.value = v)) = none := by
    rw [List.find?_eq_none]
    intro ps _
    cases ps
    all_goals simp only [PlaybackState.value, decide_eq_true_eq]
    · exact fun hh => h0 hh.symm
    · exact fun hh => h1 hh.symm
    · exact fun hh => h2 hh.symm
    · exact fun hh => h4 hh.symm
    · exact fun hh => h5 hh.symm
    · exact fun hh => h6 hh.symm
    · exact fun hh => h9 hh.symm
  unfold pbFromWire specPlaybackOfWire
  rw [hf]
  simp [h0, h1, h2, h4, h5, h6]

theorem dmFromWire_eq_spec (v : String) : dmFromWire v = specDeviceOfWire v := by
  by_cases g0 : v = "00"
  · subst g0; decide
  by_cases g1 : v = "01"
  · subst g1; decide
  by_cases g2 : v = "02"
  · subst g2; decide
  by_cases g5 : v = "05"
  · subst g5; decide
  by_cases g6 : v = "06"
  · subst g6; decide
  by_cases g7 : v = "07"
  · subst g7; decide
  by_cases g8 : v = "08"
  · subst g8; decide
  by_cases g9 : v = "09"
  · subst g9; decide
  by_cases gF : v = "FF"
  · subst gF; decide
  have hf : DeviceMode.all.find? (fun dm => decide (dm.value = v)) = none := by
    rw [List.find?_eq_none]
    intro dm _
    cases dm
    all_goals simp only [DeviceMode.value, decide_eq_true_eq]
    · exact fun hh => g0 hh.symm
    · exact fun hh => g1 hh.symm
    · exact fun hh => g2 hh.symm
    · exact fun hh => g5 hh.symm
    · exact fun hh => g6 hh.symm
    · exact fun hh => g7 hh.symm
    · exact fun hh => g8 hh.symm
    · exact fun hh => g9 hh.symm
    · exact fun hh => gF hh.symm
  unfold dmFromWire specDeviceOfWire
  rw [hf]
  simp [g0, g1, g2, g5, g6, g7, g8, g9]

theorem decodeSimpleSection_is_on (dl : List String) :
    (decodeSimpleSection dl).is_on =
      decide ((decodeSimpleSection dl).device_mode ≠ DeviceMode.STANDBY) := by
  cases dl with
  | nil => rfl
  | cons line rest => rfl

theorem getPlayerStatus_none_iff (r1 r2 : HttpResult) :
    getPlayerStatus r1 r2 = none ↔
      ((sendRaw r1).success && (sendRaw r2).success) = false := by
  unfold getPlayerStatus
  by_cases h : ((sendRaw r1).success && (sendRaw r2).success) = true
  · rw [if_pos h]
    simp [h]
  · rw [if_neg h]
    simp only [Bool.not_eq_true] at h
    simp [h]

theorem getPlayerStatus_some_elim {r1 r2 : HttpResult} {st : PlayerStatus}
    (h : getPlayerStatus r1 r2 = some st) :
    st = combineStatus (decodePstSection (sendRaw r1).data_lines)
                       (decodeSimpleSection (sendRaw r2).data_lines) := by
  unfold getPlayerStatus at h
  split at h
  · exact (Option.some.inj h).symm
  · exact absurd h (by simp)

theorem coordinatorState_eq_spec (st : PlayerStatus) :
    coordinatorState st = specDerivedState st.is_on st.device_mode := by
  obtain ⟨i, dm, ps, pos, sp, ct, rp, rs⟩ := st
  cases i <;> cases dm <;> rfl

/-! ### The claims -/

/-- C1 counterexample: a response whose body is just the success code
`"00"` makes both POSTs report success with an empty data-line set, yet
`get_player_status` returns a (fully defaulted) status, not absent —
refuting "returns None whenever ... either returned data-line set is
empty". -/
theorem claim_C1_counterexample :
    (sendRaw (HttpResult.body "00")).success = true ∧
    (sendRaw (HttpResult.body "00")).data_lines = [] ∧
    getPlayerStatus (HttpResult.body "00") (HttpResult.body "00") ≠ none := by
  decide

/-- C1 (amended): `get_player_status()` returns absent exactly when one
of the two underlying POSTs reports `success=false`. An empty data-line
set does not cause absence: the fields decoded from that response (and
only those) keep their defaults — PST side `playback_state = UNKNOWN`,
position 0, speed 0, no raw line; STATUS_SIMPLE side
`device_mode = UNKNOWN`, `is_on = true`, no clock, no raw line. -/
theorem claim_C1_amended_absent_iff (r1 r2 : HttpResult) :
    (getPlayerStatus r1 r2 = none ↔
      ((sendRaw r1).success = false ∨ (sendRaw r2).success = false)) ∧
    (∀ st, getPlayerStatus r1 r2 = some st →
      ((sendRaw r1).data_lines = [] →
         st.playback_state = PlaybackState.UNKNOWN ∧
         st.position_seconds = 0 ∧ st.speed_multiplier = 0 ∧
         st.raw_pst = none) ∧
      ((sendRaw r2).data_lines = [] →
         st.is_on = true ∧ st.device_mode = DeviceMode.UNKNOWN ∧
         st.clock_time = none ∧ st.raw_status = none)) := by
  constructor
  · rw [getPlayerStatus_none_iff]
    cases (sendRaw r1).success <;> cases (sendRaw r2).success <;> simp
  · intro st h
    have hst := getPlayerStatus_some_elim h
    subst hst
    constructor
    · intro hdl
      rw [hdl]
      exact ⟨rfl, rfl, rfl, rfl⟩
    · intro hdl
      rw [hdl]
      exact ⟨rfl, rfl, rfl, rfl⟩

/-- C2 counterexample: the PST line `"1,-5,0"` (field 1 a negative
integer literal) yields a returned status with `position_seconds = -5`,
refuting `position_seconds ≥ 0`. -/
theorem claim_C2_counterexample :
    getPlayerStatus (HttpResult.body "00\r\n1,-5,0") (HttpResult.body "00") =
      some ⟨true, .UNKNOWN, .PLAYING, -5, 0, none, some "1,-5,0", none⟩ ∧
    (-5 : Int) < 0 := by
  decide

/-- C2 (amended): for every status `get_player_status()` returns,
`position_seconds` is nonnegative unless PST field 1 parses as a
negative integer literal, in which case that negative value is passed
through unchanged. -/
theorem claim_C2_amended_position (r1 r2 : HttpResult) (st : PlayerStatus)
    (h : getPlayerStatus r1 r2 = some st) :
    0 ≤ st.position_seconds ∨
      ∃ line k, st.raw_pst = some line ∧
        pyInt? ((pySplitComma line).getD 1 "") = some k ∧ k < 0 ∧
        st.position_seconds = k := by
  have hst := getPlayerStatus_some_elim h
  subst hst
  cases hdl : (sendRaw r1).data_lines with
  | nil =>
    left
    have hpos : (combineStatus (decodePstSection ([] : List String))
        (decodeSimpleSection (sendRaw r2).data_lines)).position_seconds = 0 := rfl
    rw [hpos]
  | cons line rest =>
    have hpos : (combineStatus (decodePstSection (line :: rest))
        (decodeSimpleSection (sendRaw r2).data_lines)).position_seconds =
        (parsePstLine line).2.1 := rfl
    have hraw : (combineStatus (decodePstSection (line :: rest))
        (decodeSimpleSection (sendRaw r2).data_lines)).raw_pst = some line := rfl
    rw [hpos, hraw]
    by_cases hlen : 3 ≤ (pySplitComma line).length
    · have hps : (parsePstLine line).2.1 =
          (pyInt? ((pySplitComma line).getD 1 "")).getD 0 := by
        unfold parsePstLine
        rw [if_pos hlen]
      rw [hps]
      cases hint : pyInt? ((pySplitComma line).getD 1 "") with
      | none =>
        left
        exact le_refl 0
      | some k =>
        rcases le_or_lt 0 k with hk | hk
        · left
          exact hk
        · right
          exact ⟨line, k, rfl, hint, hk, rfl⟩
    · left
      have hps : (parsePstLine line).2.1 = 0 := by
        unfold parsePstLine
        rw [if_neg hlen]
      rw [hps]

/-- C2 witness: the amended theorem applied to the PST line
`"1,125,0"`, whose decoded position 125 is nonnegative. -/
theorem claim_C2_amended_witness :
    0 ≤ ((⟨true, .UNKNOWN, .PLAYING, 125, 0, none, some "1,125,0", none⟩ :
            PlayerStatus)).position_seconds ∨
      ∃ line k,
        (⟨true, .UNKNOWN, .PLAYING, 125, 0, none, some "1,125,0", none⟩ :
            PlayerStatus).raw_pst = some line ∧
        pyInt? ((pySplitComma line).getD 1 "") = some k ∧ k < 0 ∧
        (⟨true, .UNKNOWN, .PLAYING, 125, 0, none, some "1,125,0", none⟩ :
            PlayerStatus).position_seconds = k :=
  claim_C2_amended_position (HttpResult.body "00\r\n1,125,0") (HttpResult.body "00")
    ⟨true, .UNKNOWN, .PLAYING, 125, 0, none, some "1,125,0", none⟩ (by decide)

/-- C3: whenever `get_player_status()` yields absent, the coordinator's
update publishes every field set to its unknown/zero/absent sentinel
(`state=None, is_on=None, device_mode=None, playback_state=None,
media_position=0, media_duration=0, speed_multiplier=0, tray_open=None,
clock_time=None`), each key present in the mapping, and `state` is
`None`, never `OFF`. -/
theorem claim_C3_absent_publishes_unknown (r1 r2 : HttpResult) (now : Nat)
    (h : getPlayerStatus r1 r2 = none) :
    lookupStr "state" (coordUpdate r1 r2 now) = some CoordValue.vNone ∧
    lookupStr "is_on" (coordUpdate r1 r2 now) = some CoordValue.vNone ∧
    lookupStr "device_mode" (coordUpdate r1 r2 now) = some CoordValue.vNone ∧
    lookupStr "playback_state" (coordUpdate r1 r2 now) = some CoordValue.vNone ∧
    lookupStr "media_position" (coordUpdate r1 r2 now) = some (CoordValue.vInt 0) ∧
    lookupStr "media_duration" (coordUpdate r1 r2 now) = some (CoordValue.vInt 0) ∧
    lookupStr "speed_multiplier" (coordUpdate r1 r2 now) = some (CoordValue.vInt 0) ∧
    lookupStr "tray_open" (coordUpdate r1 r2 now) = some CoordValue.vNone ∧
    lookupStr "clock_time" (coordUpdate r1 r2 now) = some CoordValue.vNone ∧
    lookupStr "state" (coordUpdate r1 r2 now) ≠
      some (CoordValue.vState MediaPlayerState.OFF) := by
  have e : coordUpdate r1 r2 now =
      [("state", CoordValue.vNone), ("is_on", CoordValue.vNone),
       ("device_mode", CoordValue.vNone), ("playback_state", CoordValue.vNone),
       ("media_position", CoordValue.vInt 0), ("media_duration", CoordValue.vInt 0),
       ("speed_multiplier", CoordValue.vInt 0), ("tray_open", CoordValue.vNone),
       ("clock_time", CoordValue.vNone)] := by
    unfold coordUpdate
    rw [h]
  rw [e]
  decide

/-- C3 witness: a poll cycle in which both transport calls fail
publishes the unknown sentinel mapping. -/
theorem claim_C3_witness :
    lookupStr "state" (coordUpdate HttpResult.failure HttpResult.failure 0) =
      some CoordValue.vNone ∧
    lookupStr "is_on" (coordUpdate HttpResult.failure HttpResult.failure 0) =
      some CoordValue.vNone ∧
    lookupStr "device_mode" (coordUpdate HttpResult.failure HttpResult.failure 0) =
      some CoordValue.vNone ∧
    lookupStr "playback_state" (coordUpdate HttpResult.failure HttpResult.failure 0) =
      some CoordValue.vNone ∧
    lookupStr "media_position" (coordUpdate HttpResult.failure HttpResult.failure 0) =
      some (CoordValue.vInt 0) ∧
    lookupStr "media_duration" (coordUpdate HttpResult.failure HttpResult.failure 0) =
      some (CoordValue.vInt 0) ∧
    lookupStr "speed_multiplier" (coordUpdate HttpResult.failure HttpResult.failure 0) =
      some (CoordValue.vInt 0) ∧
    lookupStr "tray_open" (coordUpdate HttpResult.failure HttpResult.failure 0) =
      some CoordValue.vNone ∧
    lookupStr "clock_time" (coordUpdate HttpResult.failure HttpResult.failure 0) =
      some CoordValue.vNone ∧
    lookupStr "state" (coordUpdate HttpResult.failure HttpResult.failure 0) ≠
      some (CoordValue.vState MediaPlayerState.OFF) :=
  claim_C3_absent_publishes_unknown HttpResult.failure HttpResult.failure 0 (by decide)

/-- C4: for every present status the coordinator derives the published
`state` by the spec's exact first-match-wins precedence (on `is_on` and
`device_mode`), and a status with `device_mode = STANDBY` always
publishes `state = OFF`. -/
theorem claim_C4_state_precedence (r1 r2 : HttpResult) (now : Nat)
    (st : PlayerStatus) (h : getPlayerStatus r1 r2 = some st) :
    lookupStr "state" (coordUpdate r1 r2 now) =
      some (CoordValue.vState (specDerivedState st.is_on st.device_mode)) ∧
    (st.device_mode = DeviceMode.STANDBY →
       lookupStr "state" (coordUpdate r1 r2 now) =
         some (CoordValue.vState MediaPlayerState.OFF)) := by
  have hl : lookupStr "state" (coordUpdate r1 r2 now) =
      some (CoordValue.vState (coordinatorState st)) := by
    unfold coordUpdate
    rw [h]
    simp [lookupStr]
  constructor
  · rw [hl, coordinatorState_eq_spec]
  · intro hdm
    have hio : st.is_on = decide (st.device_mode ≠ DeviceMode.STANDBY) := by
      have hst := getPlayerStatus_some_elim h
      rw [hst]
      simpa [combineStatus] using decodeSimpleSection_is_on (sendRaw r2).data_lines
    rw [hl, coordinatorState_eq_spec, hdm] at *
    rw [hio]
    decide

/-- C4 witness: a STATUS_SIMPLE line with device mode `"07"` (STANDBY)
publishes `state = OFF`. -/
theorem claim_C4_witness :
    lookupStr "state"
        (coordUpdate (HttpResult.body "00")
          (HttpResult.body "00\r\nx,x,x,07,x,x,x,x,x,x,x,x,x,12:00") 0) =
      some (CoordValue.vState (specDerivedState
        (⟨false, .STANDBY, .UNKNOWN, 0, 0, some "12:00", none,
          some "x,x,x,07,x,x,x,x,x,x,x,x,x,12:00"⟩ : PlayerStatus).is_on
        (⟨false, .STANDBY, .UNKNOWN, 0, 0, some "12:00", none,
          some "x,x,x,07,x,x,x,x,x,x,x,x,x,12:00"⟩ : PlayerStatus).device_mode)) ∧
    ((⟨false, .STANDBY, .UNKNOWN, 0, 0, some "12:00", none,
        some "x,x,x,07,x,x,x,x,x,x,x,x,x,12:00"⟩ : PlayerStatus).device_mode =
        DeviceMode.STANDBY →
      lookupStr "state"
          (coordUpdate (HttpResult.body "00")
            (HttpResult.body "00\r\nx,x,x,07,x,x,x,x,x,x,x,x,x,12:00") 0) =
        some (CoordValue.vState MediaPlayerState.OFF)) :=
  claim_C4_state_precedence (HttpResult.body "00")
    (HttpResult.body "00\r\nx,x,x,07,x,x,x,x,x,x,x,x,x,12:00") 0
    ⟨false, .STANDBY, .UNKNOWN, 0, 0, some "12:00", none,
     some "x,x,x,07,x,x,x,x,x,x,x,x,x,12:00"⟩ (by decide)

/-- C5: for every HTTP-successful response body the transport splits on
CRLF, takes the response code from the first line (the part before its
first comma, or the whole line when it has none), keeps the subsequent
non-blank lines in order, and reports success exactly for code `"00"`;
the body `"01,extra\r\nlinedata\r\n"` yields code `"01"`, data lines
`["linedata"]` and `success = false`. -/
theorem claim_C5_transport_decode :
    (∀ raw : String, sendRaw (HttpResult.body raw) = specTransportDecode raw) ∧
    sendRaw (HttpResult.body "01,extra\r\nlinedata\r\n") =
      ⟨false, some "01", ["linedata"]⟩ := by
  constructor
  · intro raw
    exact parseBody_eq_spec raw
  · decide

/-- C6: the PST decode returns `(UNKNOWN, 0, 0)` for any line with fewer
than 3 comma-separated fields; otherwise field 0 is matched against the
playback wire values (default `UNKNOWN`), and fields 1 and 2 parse as
integers with default 0 on failure; it is total, and `"1,125,0"` decodes
to `(PLAYING, 125, 0)`. -/
theorem claim_C6_pst_decode (line : String) :
    ((pySplitComma line).length < 3 →
       parsePstLine line = (PlaybackState.UNKNOWN, 0, 0)) ∧
    (3 ≤ (pySplitComma line).length →
       parsePstLine line =
         (specPlaybackOfWire ((pySplitComma line).getD 0 ""),
          (pyInt? ((pySplitComma line).getD 1 "")).getD 0,
          (pyInt? ((pySplitComma line).getD 2 "")).getD 0)) ∧
    parsePstLine "1,125,0" = (PlaybackState.PLAYING, 125, 0) := by
  refine ⟨?_, ?_, by decide⟩
  · intro h
    unfold parsePstLine
    rw [if_neg (by omega)]
  · intro h
    unfold parsePstLine
    rw [if_pos h, pbFromWire_eq_spec]

/-- C7: the STATUS_SIMPLE decode returns `(UNKNOWN, no clock)` for any
line with fewer than 14 comma-separated fields; otherwise field 3 is
matched against the device-mode wire values (default `UNKNOWN`) and
field 13 is the clock time, absent when empty; a 14-field line with
field 3 `"08"` and field 13 `"14:32"` decodes to
`(PLAYING, some "14:32")`. -/
theorem claim_C7_status_simple_decode (line : String) :
    ((pySplitComma line).length < 14 →
       parseStatusSimpleLine line = (DeviceMode.UNKNOWN, none)) ∧
    (14 ≤ (pySplitComma line).length →
       parseStatusSimpleLine line =
         (specDeviceOfWire ((pySplitComma line).getD 3 ""),
          if (pySplitComma line).getD 13 "" = "" then none
          else some ((pySplitComma line).getD 13 ""))) ∧
    parseStatusSimpleLine "x,x,x,08,x,x,x,x,x,x,x,x,x,14:32" =
      (DeviceMode.PLAYING, some "14:32") := by
  refine ⟨?_, ?_, by decide⟩
  · intro h
    unfold parseStatusSimpleLine
    rw [if_neg (by omega)]
  · intro h
    unfold parseStatusSimpleLine
    rw [if_pos h, dmFromWire_eq_spec]

/-- C8: command resolution is total: a supported alias (looked up after
uppercasing, hence case-insensitively) maps to its table token; an
unmatched input beginning with `cCMD_` passes through unchanged; any
other input synthesizes `cCMD_RC_<UPPER(input)>`; `send_command` POSTs
the body `<token>.x=100&<token>.y=100`; e.g. `"play"` resolves to
`cCMD_RC_PLAYBACK`. -/
theorem claim_C8_command_resolution (s : String) :
    (∀ tok, lookupStr (pyUpper s) COMMANDS = some tok → resolveCommand s = tok) ∧
    (lookupStr (pyUpper s) COMMANDS = none → pyStartsWith "cCMD_" s = true →
       resolveCommand s = s) ∧
    (lookupStr (pyUpper s) COMMANDS = none → pyStartsWith "cCMD_" s = false →
       resolveCommand s = "cCMD_RC_" ++ pyUpper s) ∧
    sendCommandBody s =
      resolveCommand s ++ ".x=100&" ++ resolveCommand s ++ ".y=100" ∧
    resolveCommand "play" = "cCMD_RC_PLAYBACK" := by
  refine ⟨?_, ?_, ?_, rfl, by decide⟩
  · intro tok h
    unfold resolveCommand
    rw [h]
  · intro h hs
    unfold resolveCommand
    rw [h]
    simp [hs]
  · intro h hs
    unfold resolveCommand
    rw [h]
    simp [hs]

/-- C9: every status `get_player_status()` returns satisfies
`is_on = (device_mode ≠ STANDBY)`, and on the defaulting path where the
STATUS_SIMPLE data-line set is empty the mode is `UNKNOWN` with
`is_on = true`. -/
theorem claim_C9_is_on_invariant (r1 r2 : HttpResult) (st : PlayerStatus)
    (h : getPlayerStatus r1 r2 = some st) :
    st.is_on = decide (st.device_mode ≠ DeviceMode.STANDBY) ∧
    ((sendRaw r2).data_lines = [] →
       st.device_mode = DeviceMode.UNKNOWN ∧ st.is_on = true) := by
  have hst := getPlayerStatus_some_elim h
  subst hst
  constructor
  · simpa [combineStatus] using decodeSimpleSection_is_on (sendRaw r2).data_lines
  · intro hdl
    simp [combineStatus, hdl, decodeSimpleSection]

/-- C9 witness: the invariant at a concrete poll whose STATUS_SIMPLE
response has no data lines (defaulted mode `UNKNOWN`, `is_on = true`). -/
theorem claim_C9_witness :
    (⟨true, .UNKNOWN, .UNKNOWN, 0, 0, none, none, none⟩ : PlayerStatus).is_on =
      decide ((⟨true, .UNKNOWN, .UNKNOWN, 0, 0, none, none, none⟩ :
        PlayerStatus).device_mode ≠ DeviceMode.STANDBY) ∧
    ((sendRaw (HttpResult.body "00")).data_lines = [] →
       (⟨true, .UNKNOWN, .UNKNOWN, 0, 0, none, none, none⟩ :
          PlayerStatus).device_mode = DeviceMode.UNKNOWN ∧
       (⟨true, .UNKNOWN, .UNKNOWN, 0, 0, none, none, none⟩ :
          PlayerStatus).is_on = true) :=
  claim_C9_is_on_invariant (HttpResult.body "00") (HttpResult.body "00")
    ⟨true, .UNKNOWN, .UNKNOWN, 0, 0, none, none, none⟩ (by decide)

/-- C10: `get_status()` returns `("error", -1, -1)` exactly when
`get_player_status()` yields absent; a present status with
`is_on = false` gives `("standby", 0, 0)`; otherwise the mapped state
string with the position and a constant 0 duration, where an `UNKNOWN`
playback state maps to `"off"` even though the device is on. -/
theorem claim_C10_get_status (r1 r2 : HttpResult) :
    (getStatus r1 r2 = ("error", -1, -1) ↔ getPlayerStatus r1 r2 = none) ∧
    (∀ st, getPlayerStatus r1 r2 = some st →
       (st.is_on = false → getStatus r1 r2 = ("standby", 0, 0)) ∧
       (st.is_on = true →
          getStatus r1 r2 = (stateMapGet st.playback_state, st.position_seconds, 0))) ∧
    stateMapGet PlaybackState.UNKNOWN = "off" := by
  refine ⟨?_, ?_, rfl⟩
  · cases hg : getPlayerStatus r1 r2 with
    | none =>
      unfold getStatus
      rw [hg]
      simp
    | some st =>
      unfold getStatus
      rw [hg]
      by_cases hi : st.is_on
      · simp [hi, Prod.ext_iff]
      · simp [hi, Prod.ext_iff]
  · intro st hst
    unfold getStatus
    rw [hst]
    constructor
    · intro hi
      simp [hi]
    · intro hi
      simp [hi]

end PanasonicBR
